import Mathlib

/-!
Shallow embedding of `main.py` (NASA + Groq AI Space Simplifier).

The program is sequential glue around two network calls and a file write.
We model every external effect by an *outcome* supplied in an environment:
the HTTP GET to the NASA APOD endpoint (`FetchOutcome`), the Groq chat
completion call (`GroqOutcome`), and the per-date file-write block
(`WriteOutcome`).  Given an environment the program is a deterministic
function producing a trace of observable events (console output, network
calls, filesystem operations, sleeps) together with an optional uncaught
Python exception (its class name); `none` means the function returned
normally.

Python strings are Lean `String`s; a parsed JSON body is modelled by the
three dictionary fields the program ever reads (`title`, `explanation`,
`url`), each `Option String` (`none` = key absent).  Dictionary access
`d[k]` on an absent key raises `KeyError`.
-/

namespace SpaceSimplifier

/-- Observable events of a run, in program order.  `consoleOut s` models
`print(s)` (the trailing newline added by `print` is left implicit);
`fetchCall` is the `requests.get` to the APOD endpoint; `groqCall text`
is the chat-completion request carrying the explanation text embedded in
the prompt; `mkdirCall` is `os.makedirs`; `fileWrite name content` is the
creation of the output file with its full final content; `sleep n` is
`time.sleep(n)`. -/
inductive Event
  | consoleOut (s : String)
  | fetchCall (date : Option String)
  | groqCall (text : String)
  | mkdirCall (path : String)
  | fileWrite (name : String) (content : String)
  | sleep (secs : Nat)
deriving DecidableEq

/-- The fields of the parsed APOD JSON body that the program reads.
`none` models an absent dictionary key. -/
structure ApodData where
  title : Option String
  explanation : Option String
  url : Option String
deriving DecidableEq

/-- Outcome of the `requests.get` call in `get_nasa_apod`:
a 2xx status with a parseable JSON dictionary body (`ok`), a
`requests.exceptions.Timeout`, any other `requests.exceptions.RequestException`
(non-2xx status via `raise_for_status`, connection errors, ...), or a
`ValueError` from `response.json()`. -/
inductive FetchOutcome
  | ok (data : ApodData)
  | timeout
  | reqError (msg : String)
  | parseError (msg : String)
deriving DecidableEq

/-- Outcome of the Groq `chat.completions.create` call in `simplify_with_ai`:
either the call returns a response whose choices carry the listed message
contents, or it raises an exception with the given class name and message. -/
inductive GroqOutcome
  | success (choices : List String)
  | raise (excName : String) (detail : String)
deriving DecidableEq

/-- Outcome of the file-saving `try` block in `process_and_display`:
either all filesystem operations succeed, or one of them raises (modelled
as failing before any file is produced) with the given message. -/
inductive WriteOutcome
  | ok
  | fail (msg : String)
deriving DecidableEq

/-- External-world outcomes for processing one date. -/
structure DateEnv where
  fetch : FetchOutcome
  groq : GroqOutcome
  write : WriteOutcome
deriving DecidableEq

/-- External-world outcomes for a whole run of `main`: the two environment
variables as read by `os.getenv` (`none` = unset) and the outcomes for the
three processed dates, in order. -/
structure MainEnv where
  NASA_KEY : Option String
  GROQ_API_KEY : Option String
  env1 : DateEnv
  env2 : DateEnv
  env3 : DateEnv
deriving DecidableEq

/-- Python truthiness of an optional string: `None` and `""` are falsy. -/
def truthy : Option String → Bool
  | none => false
  | some s => !(s == "")

/-- Python truthiness of an optional string field being present and
non-empty; used to state "populated" claims. -/
def populatedB : Option String → Bool
  | none => false
  | some s => !(s == "")

/-- The string `c * 80` used for horizontal rules. -/
def bar80 (c : Char) : String := String.pushn "" c 80

/-- Embedding of `get_nasa_apod(date)`.  Emits the progress print and the
GET request, then follows the source: on a parseable 2xx body it returns
`None` when the `explanation` key is absent or its value is falsy, and
otherwise returns the parsed dictionary unchanged; each handled exception
prints its message and returns `None`. -/
def get_nasa_apod (date : Option String) (outcome : FetchOutcome) :
    List Event × Option ApodData :=
  let dateStr := match date with | some d => d | none => "today"
  let pre : List Event :=
    [Event.consoleOut ("Fetching NASA APOD data for " ++ dateStr ++ "..."),
     Event.fetchCall date]
  match outcome with
  | FetchOutcome.ok data =>
      match data.explanation with
      | none =>
          (pre ++ [Event.consoleOut "Warning: No explanation available for this date"],
           none)
      | some e =>
          if e = "" then
            (pre ++ [Event.consoleOut "Warning: No explanation available for this date"],
             none)
          else
            (pre ++ [Event.consoleOut "‚úì Successfully retrieved NASA data"],
             some data)
  | FetchOutcome.timeout =>
      (pre ++ [Event.consoleOut "Error: NASA API request timed out. Please try again."],
       none)
  | FetchOutcome.reqError msg =>
      (pre ++ [Event.consoleOut ("Error fetching NASA data: " ++ msg)], none)
  | FetchOutcome.parseError msg =>
      (pre ++ [Event.consoleOut ("Error parsing NASA response: " ++ msg)], none)

/-- The fallback string built in the `except` handler of `simplify_with_ai`:
a fixed marker, the exception class name, and the first 300 characters of
the original text (`text[:300]`). -/
def fallback_text (excName : String) (text : String) : String :=
  "[AI Simplification unavailable - " ++ excName ++
    "]\n\nOriginal explanation (truncated):\n" ++ String.take text 300 ++ "..."

/-- Result of the body of the `try` block of `simplify_with_ai` as seen
before the `except` handler: `ok` with `response.choices[0].message.content`
when the call returns a response with at least one choice; `error` with the
exception name when the call raises, or `IndexError` when `choices[0]` is
taken on an empty list. -/
def groq_call_result : GroqOutcome → Except String String
  | GroqOutcome.success [] => Except.error "IndexError"
  | GroqOutcome.success (c :: _) => Except.ok c
  | GroqOutcome.raise en _ => Except.error en

/-- Embedding of `simplify_with_ai(text)`.  The `raise` case models the
completion call (or client construction) raising; the handler catches every
exception, prints three diagnostic lines and returns the fallback string.
On a response with no choices the success print still happens before
`choices[0]` raises `IndexError`, which the same handler catches. -/
def simplify_with_ai (outcome : GroqOutcome) (text : String) :
    List Event × String :=
  let pre : List Event :=
    [Event.consoleOut "Sending to Groq AI for simplification...",
     Event.groqCall text]
  match outcome with
  | GroqOutcome.success (c :: _) =>
      (pre ++ [Event.consoleOut "‚úì Successfully simplified with Groq AI"], c)
  | GroqOutcome.success [] =>
      (pre ++ [Event.consoleOut "‚úì Successfully simplified with Groq AI",
               Event.consoleOut ("‚úó ERROR with Groq AI: " ++ "IndexError"),
               Event.consoleOut ("   Details: " ++ "list index out of range"),
               Event.consoleOut "   Falling back to original explanation..."],
       fallback_text "IndexError" text)
  | GroqOutcome.raise en d =>
      (pre ++ [Event.consoleOut ("‚úó ERROR with Groq AI: " ++ en),
               Event.consoleOut ("   Details: " ++ d),
               Event.consoleOut "   Falling back to original explanation..."],
       fallback_text en text)

/-- The full content of the per-date output file, mirroring the sequence of
`f.write` calls in `process_and_display`. -/
def file_content (date title url expl simplified : String) : String :=
  "NASA + Groq AI Space Simplifier\n" ++
  ("Date: " ++ date ++ "\n") ++
  ("Title: " ++ title ++ "\n") ++
  ("Image URL: " ++ url ++ "\n\n") ++
  "ORIGINAL EXPLANATION:\n" ++
  expl ++
  "\n\nSIMPLIFIED VERSION:\n" ++
  simplified

/-- Embedding of `process_and_display(date)`.  Returns the event trace and
the name of an uncaught exception when one escapes (`nasa_data['title']` or
`nasa_data['url']` on a record lacking that key raises `KeyError` after the
prints that already happened).  When the fetch returns `None` the date is
skipped before any simplification or file write, and the final `sleep(1)`
only runs when the date completes processing. -/
def process_and_display (date : String) (env : DateEnv) :
    List Event × Option String :=
  let hdr : List Event :=
    [Event.consoleOut ("\n" ++ bar80 '='),
     Event.consoleOut ("PROCESSING DATE: " ++ date),
     Event.consoleOut (bar80 '=' ++ "\n")]
  let fetched := get_nasa_apod (some date) env.fetch
  match fetched.2 with
  | none =>
      (hdr ++ fetched.1 ++
        [Event.consoleOut ("Skipping " ++ date ++ " due to NASA API error\n")],
       none)
  | some nasa_data =>
      match nasa_data.explanation with
      | none => (hdr ++ fetched.1, some "KeyError")
      | some expl =>
          let simplified := simplify_with_ai env.groq expl
          let displayHdr : List Event :=
            [Event.consoleOut ("\n" ++ bar80 '-'),
             Event.consoleOut ("üìÖ DATE: " ++ date)]
          match nasa_data.title with
          | none =>
              (hdr ++ fetched.1 ++ simplified.1 ++ displayHdr, some "KeyError")
          | some title =>
              match nasa_data.url with
              | none =>
                  (hdr ++ fetched.1 ++ simplified.1 ++ displayHdr ++
                    [Event.consoleOut ("üåü TITLE: " ++ title)], some "KeyError")
              | some url =>
                  let displayRest : List Event :=
                    [Event.consoleOut ("üåü TITLE: " ++ title),
                     Event.consoleOut ("üñºÔ∏è  IMAGE URL: " ++ url),
                     Event.consoleOut (bar80 '-'),
                     Event.consoleOut "\nüìñ ORIGINAL NASA EXPLANATION:",
                     Event.consoleOut (bar80 '-'),
                     Event.consoleOut expl,
                     Event.consoleOut "\n‚ú® SIMPLIFIED VERSION (for high school students):",
                     Event.consoleOut (bar80 '-'),
                     Event.consoleOut simplified.2,
                     Event.consoleOut ("\n" ++ bar80 '=' ++ "\n")]
                  let filename := "screenshots/output_" ++ date ++ ".txt"
                  let fileEvents : List Event :=
                    match env.write with
                    | WriteOutcome.ok =>
                        [Event.mkdirCall "screenshots",
                         Event.fileWrite filename
                           (file_content date title url expl simplified.2),
                         Event.consoleOut ("‚úì Output saved to " ++ filename)]
                    | WriteOutcome.fail msg =>
                        [Event.consoleOut ("Note: Could not save to file: " ++ msg)]
                  (hdr ++ fetched.1 ++ simplified.1 ++ displayHdr ++ displayRest ++
                    fileEvents ++ [Event.sleep 1], none)

/-- The banner printed at the top of `main`. -/
def mainHeader : List Event :=
  [Event.consoleOut ("\n" ++ bar80 '='),
   Event.consoleOut "NASA + GROQ AI SPACE SIMPLIFIER",
   Event.consoleOut "Making complex astronomy accessible to everyone",
   Event.consoleOut (bar80 '=')]

/-- The instruction block printed when an API key is missing. -/
def keyErrorMsg : List Event :=
  [Event.consoleOut "\n‚ùå ERROR: API keys not found!",
   Event.consoleOut "Please make sure you have a .env file with:",
   Event.consoleOut "NASA_KEY=your_nasa_key_here",
   Event.consoleOut "GROQ_API_KEY=your_groq_key_here",
   Event.consoleOut "\nGet Groq API key at: https://console.groq.com/keys"]

/-- The closing banner of `main`. -/
def mainFooter : List Event :=
  [Event.consoleOut ("\n" ++ bar80 '='),
   Event.consoleOut "PROCESSING COMPLETE!",
   Event.consoleOut "Check the screenshots/ folder for saved outputs",
   Event.consoleOut (bar80 '=' ++ "\n")]

/-- The three hard-coded test dates of `main`, in call order. -/
def testDates : List String := ["2024-12-10", "2024-03-15", "2024-01-20"]

/-- Embedding of `main()`.  Prints the banner; halts with the instruction
block when either key is falsy; otherwise prints key confirmations and runs
`process_and_display` on the three hard-coded dates in order.  An uncaught
exception from a date aborts the run there and propagates. -/
def main (env : MainEnv) : List Event × Option String :=
  if !(truthy env.NASA_KEY) || !(truthy env.GROQ_API_KEY) then
    (mainHeader ++ keyErrorMsg, none)
  else
    let keysOk : List Event :=
      [Event.consoleOut "\n‚úì API keys loaded successfully",
       Event.consoleOut ("‚úì NASA Key: " ++
         String.take (Option.getD env.NASA_KEY "") 20 ++ "..."),
       Event.consoleOut ("‚úì Groq Key: " ++
         String.take (Option.getD env.GROQ_API_KEY "") 20 ++ "...")]
    let p1 := process_and_display "2024-12-10" env.env1
    match p1.2 with
    | some exn => (mainHeader ++ keysOk ++ p1.1, some exn)
    | none =>
      let p2 := process_and_display "2024-03-15" env.env2
      match p2.2 with
      | some exn => (mainHeader ++ keysOk ++ p1.1 ++ p2.1, some exn)
      | none =>
        let p3 := process_and_display "2024-01-20" env.env3
        match p3.2 with
        | some exn => (mainHeader ++ keysOk ++ p1.1 ++ p2.1 ++ p3.1, some exn)
        | none =>
          (mainHeader ++ keysOk ++ p1.1 ++ p2.1 ++ p3.1 ++ mainFooter, none)

/-- Predicate picking out fetch (NASA GET) events. -/
def isFetchEvt : Event → Bool
  | Event.fetchCall _ => true
  | _ => false

/-- Predicate picking out Groq completion-call events. -/
def isGroqEvt : Event → Bool
  | Event.groqCall _ => true
  | _ => false

/-- Predicate picking out file-creation events. -/
def isFileWriteEvt : Event → Bool
  | Event.fileWrite _ _ => true
  | _ => false

/-- Predicate picking out sleep events. -/
def isSleepEvt : Event → Bool
  | Event.sleep _ => true
  | _ => false

/-- A fetch outcome that cannot make `process_and_display` raise an uncaught
exception: whenever it yields a parsed record whose explanation is populated
(so the date is not skipped), the record also carries the `title` and `url`
keys that the display code accesses unguarded. -/
def fetchBenign : FetchOutcome → Prop
  | FetchOutcome.ok d =>
      populatedB d.explanation = true → (d.title ≠ none ∧ d.url ≠ none)
  | _ => True

/-- A parsed body carrying all three fields the program reads. -/
def apodFull : ApodData :=
  { title := some "Comet", explanation := some "A comet.", url := some "https://img" }

/-- A parsed body with a populated explanation but no `title` or `url` key. -/
def apodNoTitle : ApodData :=
  { title := none, explanation := some "A nebula.", url := none }

/-- A parsed body lacking the `explanation` key. -/
def apodNoExpl : ApodData :=
  { title := some "T", explanation := none, url := some "U" }

/-- A date environment whose fetch times out (the date is skipped). -/
def dEnvSkip : DateEnv :=
  { fetch := FetchOutcome.timeout,
    groq := GroqOutcome.raise "APIConnectionError" "connection failed",
    write := WriteOutcome.ok }

/-- Date environment for the C2 witness: 2xx response missing `explanation`. -/
def envC2 : DateEnv :=
  { fetch := FetchOutcome.ok apodNoExpl,
    groq := GroqOutcome.raise "APIError" "boom",
    write := WriteOutcome.ok }

/-- Run environment for the C5 witness: the NASA key is unset. -/
def envC5 : MainEnv :=
  { NASA_KEY := none, GROQ_API_KEY := some "groqkey",
    env1 := dEnvSkip, env2 := dEnvSkip, env3 := dEnvSkip }

/-- Date environment for the C6 counterexample: successful fetch of a full
record, successful simplification, but the file-write block raises. -/
def envC6bad : DateEnv :=
  { fetch := FetchOutcome.ok apodFull,
    groq := GroqOutcome.success ["Simple."],
    write := WriteOutcome.fail "disk full" }

/-- Date environment for the C6 witness: everything succeeds. -/
def envC6ok : DateEnv :=
  { fetch := FetchOutcome.ok apodFull,
    groq := GroqOutcome.success ["Simple."],
    write := WriteOutcome.ok }

/-- Run environment for the C7 counterexample: both keys set, and the first
date fetches a record with a populated explanation but no `title` key. -/
def envC7bad : MainEnv :=
  { NASA_KEY := some "nasakey", GROQ_API_KEY := some "groqkey",
    env1 := { fetch := FetchOutcome.ok apodNoTitle,
              groq := GroqOutcome.success ["S"],
              write := WriteOutcome.ok },
    env2 := dEnvSkip, env3 := dEnvSkip }

/-- Run environment for the C7 witness: keys set, every fetch times out. -/
def envW7 : MainEnv :=
  { NASA_KEY := some "nasakey", GROQ_API_KEY := some "groqkey",
    env1 := dEnvSkip, env2 := dEnvSkip, env3 := dEnvSkip }

/-- Run environment for the C8 counterexample: the first date is skipped
(fetch timeout), the second and third are fully processed. -/
def envC8bad : MainEnv :=
  { NASA_KEY := some "nasakey", GROQ_API_KEY := some "groqkey",
    env1 := dEnvSkip,
    env2 := { fetch := FetchOutcome.ok
                { title := some "T2", explanation := some "E2", url := some "U2" },
              groq := GroqOutcome.success ["S2"],
              write := WriteOutcome.ok },
    env3 := { fetch := FetchOutcome.ok
                { title := some "T3", explanation := some "E3", url := some "U3" },
              groq := GroqOutcome.success ["S3"],
              write := WriteOutcome.ok } }

/-- Run environment for the C8 witness: keys set, every fetch times out. -/
def envW8 : MainEnv :=
  { NASA_KEY := some "nasakey", GROQ_API_KEY := some "groqkey",
    env1 := dEnvSkip, env2 := dEnvSkip, env3 := dEnvSkip }

/-- Date environment for the per-date part of the C8 witness: a fully
processed date. -/
def denvW8 : DateEnv :=
  { fetch := FetchOutcome.ok apodFull,
    groq := GroqOutcome.success ["Simple."],
    write := WriteOutcome.ok }

/-- Date environment for the C10 witness. -/
def envC10 : DateEnv :=
  { fetch := FetchOutcome.ok apodFull,
    groq := GroqOutcome.success ["Simple."],
    write := WriteOutcome.ok }

theorem aux_simplify_groqCall_mem (g : GroqOutcome) (x t : String)
    (h : Event.groqCall t ∈ (simplify_with_ai g x).1) : t = x := by
  cases g with
  | success cs =>
      cases cs with
      | nil => simpa [simplify_with_ai] using h
      | cons c cs => simpa [simplify_with_ai] using h
  | raise en d => simpa [simplify_with_ai] using h

theorem aux_simplify_countP_fw (g : GroqOutcome) (x : String) :
    (simplify_with_ai g x).1.countP isFileWriteEvt = 0 := by
  cases g with
  | success cs => cases cs <;> rfl
  | raise en d => rfl

theorem aux_simplify_filter_fetch (g : GroqOutcome) (x : String) :
    (simplify_with_ai g x).1.filter isFetchEvt = [] := by
  cases g with
  | success cs => cases cs <;> rfl
  | raise en d => rfl

theorem aux_fetch_filter_fetch (date : Option String) (o : FetchOutcome) :
    (get_nasa_apod date o).1.filter isFetchEvt = [Event.fetchCall date] := by
  cases o with
  | ok data =>
      cases hde : data.explanation with
      | none => simp [get_nasa_apod, hde, isFetchEvt, List.filter]
      | some e =>
          by_cases he : e = "" <;>
            simp [get_nasa_apod, hde, he, isFetchEvt, List.filter]
  | timeout => simp [get_nasa_apod, isFetchEvt, List.filter]
  | reqError m => simp [get_nasa_apod, isFetchEvt, List.filter]
  | parseError m => simp [get_nasa_apod, isFetchEvt, List.filter]

theorem aux_pad_no_exn (date : String) (env : DateEnv)
    (h : fetchBenign env.fetch) : (process_and_display date env).2 = none := by
  obtain ⟨f, g, w⟩ := env
  cases f with
  | ok data =>
      obtain ⟨ti, ex, u⟩ := data
      cases ex with
      | none => simp [process_and_display, get_nasa_apod]
      | some e =>
          by_cases he : e = ""
          · simp [process_and_display, get_nasa_apod, he]
          · have hp : populatedB (some e) = true := by simp [populatedB, he]
            obtain ⟨hti, hu⟩ := h hp
            cases ti with
            | none => exact absurd rfl hti
            | some title =>
                cases u with
                | none => exact absurd rfl hu
                | some url =>
                    cases w <;> simp [process_and_display, get_nasa_apod, he]
  | timeout => simp [process_and_display, get_nasa_apod]
  | reqError m => simp [process_and_display, get_nasa_apod]
  | parseError m => simp [process_and_display, get_nasa_apod]

theorem aux_pad_filter_fetch (date : String) (env : DateEnv)
    (h : fetchBenign env.fetch) :
    (process_and_display date env).1.filter isFetchEvt =
      [Event.fetchCall (some date)] := by
  obtain ⟨f, g, w⟩ := env
  cases f with
  | ok data =>
      obtain ⟨ti, ex, u⟩ := data
      cases ex with
      | none =>
          simp [process_and_display, get_nasa_apod, isFetchEvt, List.filter]
      | some e =>
          by_cases he : e = ""
          · simp [process_and_display, get_nasa_apod, he, isFetchEvt, List.filter]
          · have hp : populatedB (some e) = true := by simp [populatedB, he]
            obtain ⟨hti, hu⟩ := h hp
            cases ti with
            | none => exact absurd rfl hti
            | some title =>
                cases u with
                | none => exact absurd rfl hu
                | some url =>
                    cases w <;>
                      simp [process_and_display, get_nasa_apod, he,
                        List.filter_append, aux_simplify_filter_fetch,
                        isFetchEvt, List.filter]
  | timeout => simp [process_and_display, get_nasa_apod, isFetchEvt, List.filter]
  | reqError m => simp [process_and_display, get_nasa_apod, isFetchEvt, List.filter]
  | parseError m => simp [process_and_display, get_nasa_apod, isFetchEvt, List.filter]

/-- C1, counterexample: a 2xx parseable body with a non-empty explanation but
no `title` or `url` key is returned by the fetcher as is, so the returned
record does not have all three fields populated (its title is absent). -/
theorem C1_counterexample :
    (get_nasa_apod (some "2024-12-10") (FetchOutcome.ok apodNoTitle)).2 =
        some apodNoTitle ∧
    populatedB apodNoTitle.explanation = true ∧
    populatedB apodNoTitle.title = false := by
  refine ⟨by decide, rfl, rfl⟩

/-- C1, amended: on a success status and parseable body whose explanation is
populated, the fetcher returns the parsed record unchanged; its explanation
is populated, but title and image url are only populated when the body
populates them (the fetcher does not check those fields). -/
theorem C1_amended (date : Option String) (d : ApodData)
    (h : populatedB d.explanation = true) :
    (get_nasa_apod date (FetchOutcome.ok d)).2 = some d := by
  cases hde : d.explanation with
  | none => rw [hde] at h; simp [populatedB] at h
  | some e =>
      rw [hde] at h
      have he : ¬ (e = "") := by simpa [populatedB] using h
      simp [get_nasa_apod, hde, he]

/-- C1, witness for the amended theorem at a concrete populated record. -/
theorem C1_amended_witness :
    (get_nasa_apod (some "2024-12-10") (FetchOutcome.ok apodFull)).2 =
      some apodFull :=
  C1_amended (some "2024-12-10") apodFull (by decide)

/-- C2: when the 2xx body lacks the `explanation` key (or it is empty), the
fetcher returns `None`, and for that date the orchestrator performs no Groq
call and writes no file, returning normally. -/
theorem C2_missing_explanation (date : String) (env : DateEnv) (d : ApodData)
    (hf : env.fetch = FetchOutcome.ok d)
    (he : populatedB d.explanation = false) :
    (get_nasa_apod (some date) env.fetch).2 = none ∧
    (process_and_display date env).1.all
      (fun e => !(isGroqEvt e) && !(isFileWriteEvt e)) = true ∧
    (process_and_display date env).2 = none := by
  obtain ⟨f, g, w⟩ := env
  cases hf
  cases hde : d.explanation with
  | none =>
      refine ⟨?_, ?_, ?_⟩ <;>
        simp [process_and_display, get_nasa_apod, hde, isGroqEvt, isFileWriteEvt]
  | some e =>
      rw [hde] at he
      have he0 : e = "" := by simpa [populatedB] using he
      subst he0
      refine ⟨?_, ?_, ?_⟩ <;>
        simp [process_and_display, get_nasa_apod, hde, isGroqEvt, isFileWriteEvt]

/-- C2, witness at a concrete response lacking the explanation key. -/
theorem C2_witness :
    (get_nasa_apod (some "2024-12-10") envC2.fetch).2 = none ∧
    (process_and_display "2024-12-10" envC2).1.all
      (fun e => !(isGroqEvt e) && !(isFileWriteEvt e)) = true ∧
    (process_and_display "2024-12-10" envC2).2 = none :=
  C2_missing_explanation "2024-12-10" envC2 apodNoExpl rfl rfl

/-- C3: when the completion call raises, the simplifier returns a string that
starts with the fixed marker and embeds a prefix of at most 300 characters
of the input text. -/
theorem C3_fallback (en detail t : String) :
    (∃ rest, (simplify_with_ai (GroqOutcome.raise en detail) t).2 =
        "[AI Simplification unavailable - " ++ rest) ∧
    (∃ p u pre post, t = p ++ u ∧ p.length ≤ 300 ∧
        (simplify_with_ai (GroqOutcome.raise en detail) t).2 =
          pre ++ p ++ post) := by
  constructor
  · refine ⟨en ++ ("]\n\nOriginal explanation (truncated):\n" ++
        (String.take t 300 ++ "...")), ?_⟩
    simp [simplify_with_ai, fallback_text, String.append_assoc]
  · refine ⟨String.take t 300, String.drop t 300,
      "[AI Simplification unavailable - " ++ en ++
        "]\n\nOriginal explanation (truncated):\n", "...", ?_, ?_, ?_⟩
    · apply String.ext
      simp [String.data_append]
    · have h1 : (String.take t 300).data.length ≤ 300 := by
        rw [String.data_take]
        exact t.data.length_take_le 300
      calc (String.take t 300).length
          = (String.take t 300).data.length := (String.length_data _).symm
        _ ≤ 300 := h1
    · simp [simplify_with_ai, fallback_text, String.append_assoc]

/-- C4: when the completion call returns a response with a first choice, the
simplifier returns exactly that choice's message content, unmodified. -/
theorem C4_success_identity (c : String) (rest : List String) (t : String) :
    (simplify_with_ai (GroqOutcome.success (c :: rest)) t).2 = c := rfl

/-- C5: when either environment variable is unset or empty, `main` prints the
banner and the key instruction block and returns; the trace contains no
fetch and no Groq call. -/
theorem C5_missing_keys (env : MainEnv)
    (h : truthy env.NASA_KEY = false ∨ truthy env.GROQ_API_KEY = false) :
    main env = (mainHeader ++ keyErrorMsg, none) ∧
    (main env).1.all (fun e => !(isFetchEvt e) && !(isGroqEvt e)) = true := by
  have hc : (!(truthy env.NASA_KEY) || !(truthy env.GROQ_API_KEY)) = true := by
    rcases h with h | h <;> simp [h]
  have hm : main env = (mainHeader ++ keyErrorMsg, none) := by
    simp [main, hc]
  refine ⟨hm, ?_⟩
  rw [hm]
  simp [mainHeader, keyErrorMsg, isFetchEvt, isGroqEvt]

/-- C5, witness: the NASA key is unset. -/
theorem C5_witness :
    main envC5 = (mainHeader ++ keyErrorMsg, none) ∧
    (main envC5).1.all (fun e => !(isFetchEvt e) && !(isGroqEvt e)) = true :=
  C5_missing_keys envC5 (Or.inl rfl)

/-- C9: the simplifier is total at its interface: for every outcome of the
completion call and every input text it returns a plain string, mapping
every exception of the call body to the fallback string instead of
propagating it. -/
theorem C9_total (o : GroqOutcome) (t : String) :
    groq_call_result o = Except.ok ((simplify_with_ai o t).2) ∨
    (∃ en, groq_call_result o = Except.error en ∧
      (simplify_with_ai o t).2 = fallback_text en t) := by
  cases o with
  | success cs =>
      cases cs with
      | nil => exact Or.inr ⟨"IndexError", rfl, rfl⟩
      | cons c cs => exact Or.inl rfl
  | raise en d => exact Or.inr ⟨en, rfl, rfl⟩

/-- C6, counterexample: a fully fetched date (all fields present) whose
file-write block raises produces no output file at all, so "exactly one
output file is created" fails for a date whose fetch succeeded. -/
theorem C6_counterexample :
    (get_nasa_apod (some "2024-12-10") envC6bad.fetch).2 = some apodFull ∧
    (process_and_display "2024-12-10" envC6bad).1.countP isFileWriteEvt = 0 := by
  constructor <;> decide

/-- C6, amended: for each date whose fetch succeeds with a record carrying
title and url, if the file-write block raises no exception then exactly one
output file is created, named `screenshots/output_<date>.txt`, and its
contents embed both the original explanation and the simplified text. -/
theorem C6_amended (date : String) (env : DateEnv) (t e u : String)
    (hf : env.fetch = FetchOutcome.ok
      { title := some t, explanation := some e, url := some u })
    (he : ¬ (e = ""))
    (hw : env.write = WriteOutcome.ok) :
    (process_and_display date env).1.countP isFileWriteEvt = 1 ∧
    Event.fileWrite ("screenshots/output_" ++ date ++ ".txt")
        (file_content date t u e (simplify_with_ai env.groq e).2) ∈
      (process_and_display date env).1 ∧
    (∃ a b, a ++ e.data ++ b =
        (file_content date t u e (simplify_with_ai env.groq e).2).data) ∧
    (∃ a b, a ++ ((simplify_with_ai env.groq e).2).data ++ b =
        (file_content date t u e (simplify_with_ai env.groq e).2).data) := by
  obtain ⟨f, g, w⟩ := env
  cases hf
  cases hw
  refine ⟨?_, ?_, ?_, ?_⟩
  · simp [process_and_display, get_nasa_apod, he, List.countP_append,
      aux_simplify_countP_fw, isFileWriteEvt, List.countP_cons]
  · simp [process_and_display, get_nasa_apod, he]
  · refine ⟨("NASA + Groq AI Space Simplifier\n" ++ ("Date: " ++ date ++ "\n") ++
        ("Title: " ++ t ++ "\n") ++ ("Image URL: " ++ u ++ "\n\n") ++
        "ORIGINAL EXPLANATION:\n").data,
      ("\n\nSIMPLIFIED VERSION:\n" ++ (simplify_with_ai g e).2).data, ?_⟩
    simp [file_content, String.data_append, List.append_assoc]
  · refine ⟨("NASA + Groq AI Space Simplifier\n" ++ ("Date: " ++ date ++ "\n") ++
        ("Title: " ++ t ++ "\n") ++ ("Image URL: " ++ u ++ "\n\n") ++
        "ORIGINAL EXPLANATION:\n" ++ e ++ "\n\nSIMPLIFIED VERSION:\n").data,
      ([] : List Char), ?_⟩
    simp [file_content, String.data_append, List.append_assoc]

/-- C6, witness: a fully successful date creates exactly one file whose
contents embed the original and the simplified text. -/
theorem C6_witness :
    (process_and_display "2024-12-10" envC6ok).1.countP isFileWriteEvt = 1 ∧
    Event.fileWrite ("screenshots/output_" ++ "2024-12-10" ++ ".txt")
        (file_content "2024-12-10" "Comet" "https://img" "A comet."
          (simplify_with_ai envC6ok.groq "A comet.").2) ∈
      (process_and_display "2024-12-10" envC6ok).1 ∧
    (∃ a b, a ++ "A comet.".data ++ b =
        (file_content "2024-12-10" "Comet" "https://img" "A comet."
          (simplify_with_ai envC6ok.groq "A comet.").2).data) ∧
    (∃ a b, a ++ ((simplify_with_ai envC6ok.groq "A comet.").2).data ++ b =
        (file_content "2024-12-10" "Comet" "https://img" "A comet."
          (simplify_with_ai envC6ok.groq "A comet.").2).data) :=
  C6_amended "2024-12-10" envC6ok "Comet" "A comet." "https://img" rfl
    (by decide) rfl

/-- C7, counterexample: with both keys present, a fetched record whose
explanation is populated but which lacks the `title` key makes the run die
with an uncaught `KeyError`, so not every per-date failure mode merely
prints and continues. -/
theorem C7_counterexample : (main envC7bad).2 = some "KeyError" := by
  decide

/-- C7, amended: provided every successfully fetched record that passes the
explanation check also carries the `title` and `url` keys, no failure is
fatal: fetch failures skip the date, completion failures degrade to the
fallback string, file-write failures print a note, and `main` returns
without an uncaught exception whatever the outcomes are. -/
theorem C7_amended (env : MainEnv)
    (h1 : fetchBenign env.env1.fetch) (h2 : fetchBenign env.env2.fetch)
    (h3 : fetchBenign env.env3.fetch) :
    (main env).2 = none := by
  have e1 := aux_pad_no_exn "2024-12-10" env.env1 h1
  have e2 := aux_pad_no_exn "2024-03-15" env.env2 h2
  have e3 := aux_pad_no_exn "2024-01-20" env.env3 h3
  cases hc : (!(truthy env.NASA_KEY) || !(truthy env.GROQ_API_KEY)) with
  | true => simp [main, hc]
  | false => simp [main, hc, e1, e2, e3]

/-- C7, witness: keys present and every fetch failing is non-fatal. -/
theorem C7_witness : (main envW7).2 = none :=
  C7_amended envW7 trivial trivial trivial

theorem aux_cons_append_getLast (a : Event) (l m : List Event) (x : Event)
    (hm : m.getLast? = some x) : (a :: (l ++ m)).getLast? = some x := by
  have hne : m ≠ [] := by
    intro h0; rw [h0] at hm; simp at hm
  rw [← List.cons_append, List.getLast?_append_of_ne_nil _ hne]
  exact hm

/-- C8, counterexample: when the first date is skipped by a fetch failure,
its fetch call and the next date's fetch call are successive third-party
calls for distinct dates with no sleep between them, refuting the claimed
one-second separation of all such calls. -/
theorem C8_counterexample :
    (main envC8bad).1.filter
        (fun e => isFetchEvt e || isGroqEvt e || isSleepEvt e) =
      [Event.fetchCall (some "2024-12-10"),
       Event.fetchCall (some "2024-03-15"), Event.groqCall "E2", Event.sleep 1,
       Event.fetchCall (some "2024-01-20"), Event.groqCall "E3",
       Event.sleep 1] := by
  decide

/-- C8, amended: the orchestrator iterates exactly the three hard-coded date
strings, and every date that completes processing ends its trace with a
one-second sleep before the next date starts; a date skipped by a fetch
failure proceeds to the next date without any pause. -/
theorem C8_amended :
    testDates = ["2024-12-10", "2024-03-15", "2024-01-20"] ∧
    (∀ env : MainEnv, truthy env.NASA_KEY = true →
      truthy env.GROQ_API_KEY = true →
      fetchBenign env.env1.fetch → fetchBenign env.env2.fetch →
      fetchBenign env.env3.fetch →
      (main env).1.filter isFetchEvt =
        testDates.map (fun d => Event.fetchCall (some d))) ∧
    (∀ (date : String) (denv : DateEnv) (d : ApodData),
      denv.fetch = FetchOutcome.ok d → populatedB d.explanation = true →
      d.title ≠ none → d.url ≠ none →
      (process_and_display date denv).1.getLast? = some (Event.sleep 1)) := by
  refine ⟨rfl, ?_, ?_⟩
  · intro env h1 h2 hb1 hb2 hb3
    have hc : (!(truthy env.NASA_KEY) || !(truthy env.GROQ_API_KEY)) = false := by
      simp [h1, h2]
    have e1 := aux_pad_no_exn "2024-12-10" env.env1 hb1
    have e2 := aux_pad_no_exn "2024-03-15" env.env2 hb2
    have e3 := aux_pad_no_exn "2024-01-20" env.env3 hb3
    have f1 := aux_pad_filter_fetch "2024-12-10" env.env1 hb1
    have f2 := aux_pad_filter_fetch "2024-03-15" env.env2 hb2
    have f3 := aux_pad_filter_fetch "2024-01-20" env.env3 hb3
    simp [main, hc, e1, e2, e3, List.filter_append, f1, f2, f3,
      testDates, mainHeader, mainFooter, isFetchEvt, List.filter]
  · intro date denv d hf hp hti hu
    obtain ⟨f, g, w⟩ := denv
    cases hf
    obtain ⟨tio, exo, uo⟩ := d
    cases exo with
    | none => simp [populatedB] at hp
    | some e =>
        have he : ¬ (e = "") := by simpa [populatedB] using hp
        cases tio with
        | none => exact absurd rfl hti
        | some title =>
            cases uo with
            | none => exact absurd rfl hu
            | some url =>
                cases w with
                | ok =>
                    simp [process_and_display, get_nasa_apod, he]
                    exact aux_cons_append_getLast _ _ _ _ rfl
                | fail m =>
                    simp [process_and_display, get_nasa_apod, he]
                    exact aux_cons_append_getLast _ _ _ _ rfl

/-- C8, witness: a run of skipped dates still fetches exactly the three
hard-coded dates, and a fully processed date ends with a one-second sleep. -/
theorem C8_witness :
    (main envW8).1.filter isFetchEvt =
      testDates.map (fun d => Event.fetchCall (some d)) ∧
    (process_and_display "2024-12-10" denvW8).1.getLast? =
      some (Event.sleep 1) :=
  ⟨C8_amended.2.1 envW8 rfl rfl trivial trivial trivial,
   C8_amended.2.2 "2024-12-10" denvW8 apodFull rfl (by decide)
     (by decide) (by decide)⟩

/-- C10: every record the fetcher returns has a present, non-empty
explanation, and hence every Groq call the orchestrator issues carries a
non-empty text. -/
theorem C10_nonempty_invariant :
    (∀ (date : Option String) (o : FetchOutcome) (d : ApodData),
        (get_nasa_apod date o).2 = some d → populatedB d.explanation = true) ∧
    (∀ (date : String) (env : DateEnv) (t : String),
        Event.groqCall t ∈ (process_and_display date env).1 → t ≠ "") := by
  constructor
  · intro date o d h
    cases o with
    | ok data =>
        cases hde : data.explanation with
        | none => simp [get_nasa_apod, hde] at h
        | some e =>
            by_cases he : e = ""
            · simp [get_nasa_apod, hde, he] at h
            · simp [get_nasa_apod, hde, he] at h
              subst h
              simp [hde, populatedB, he]
    | timeout => simp [get_nasa_apod] at h
    | reqError m => simp [get_nasa_apod] at h
    | parseError m => simp [get_nasa_apod] at h
  · intro date env t h
    obtain ⟨f, g, w⟩ := env
    cases f with
    | ok data =>
        obtain ⟨ti, ex, u⟩ := data
        cases ex with
        | none => simp [process_and_display, get_nasa_apod] at h
        | some e =>
            by_cases he : e = ""
            · simp [process_and_display, get_nasa_apod, he] at h
            · cases ti with
              | none =>
                  simp [process_and_display, get_nasa_apod, he] at h
                  have hte := aux_simplify_groqCall_mem g e t h
                  rw [hte]; exact he
              | some title =>
                  cases u with
                  | none =>
                      simp [process_and_display, get_nasa_apod, he] at h
                      have hte := aux_simplify_groqCall_mem g e t h
                      rw [hte]; exact he
                  | some url =>
                      cases w with
                      | ok =>
                          simp [process_and_display, get_nasa_apod, he] at h
                          have hte := aux_simplify_groqCall_mem g e t h
                          rw [hte]; exact he
                      | fail m =>
                          simp [process_and_display, get_nasa_apod, he] at h
                          have hte := aux_simplify_groqCall_mem g e t h
                          rw [hte]; exact he
    | timeout => simp [process_and_display, get_nasa_apod] at h
    | reqError m => simp [process_and_display, get_nasa_apod] at h
    | parseError m => simp [process_and_display, get_nasa_apod] at h

/-- C10, witness: the invariant applied at a concrete fetched record and at
a concrete Groq call of the orchestrator. -/
theorem C10_witness :
    populatedB apodFull.explanation = true ∧ ¬ (("A comet." : String) = "") :=
  ⟨C10_nonempty_invariant.1 (some "2024-12-10") (FetchOutcome.ok apodFull)
      apodFull (by decide),
   C10_nonempty_invariant.2 "2024-12-10" envC10 "A comet." (by decide)⟩

end SpaceSimplifier
